import Mathlib

/-!
Shallow embedding of `devanalysis.py` (team-balloon-msr): a time-series
causal-analysis pipeline over developer pull-request data.  The statistics
backend (statsmodels: ADF test, VAR order selection, fitting, whiteness /
normality / causality tests) is modelled by oracle functions: each oracle
gives the outcome of the corresponding library call as a function of the
data it was called on.  Control flow, aggregation and file semantics are
translated directly from the source.
-/

namespace DevAnalysis

/-- A pandas DataFrame, abstracted to its column structure: a list of
(column name, row-index list) pairs.  Cell values are never inspected by
the control flow under verification, so a column is represented by the
list of time-bucket ids it covers. -/
abbrev Table : Type := List (String × List Nat)

/-- Model of `check_stationarity` (devanalysis.py lines 33-46).  The ADF p-value
computed by `adfuller` on the column is an input here (oracle for the
library call); the threshold defaults to 0.05 in the source.  Both the
`p_value <= threshold` branch and the fall-through branch `return True`. -/
def check_stationarity (p_value threshold : ℚ) : Bool :=
  if p_value ≤ threshold then
    true   -- "%s is stationary for user %s"
  else
    true   -- "%s is NOT stationary for user %s" ... and yet: return True

/-- The `while` loop of `fit_var_model` (lines 90-97).  `w c` is the
whiteness oracle: whether `test_whiteness` on the fit at lag order `c`
concludes "reject".  Returns the final candidate order together with the
number of refit iterations performed.  The loop guard requires `c ≤ 12`
and each iteration increments `c`, so at most `13 - c` iterations can
run; the structural `fuel` argument (13 at the `fit_var_model` call
site, an upper bound for every start order) only makes that termination
explicit — the fuel-exhausted branch is unreachable. -/
def fitLoop (w : Nat → Bool) : Nat → Nat → Nat → Nat × Nat
  | 0, c, iters => (c, iters)
  | fuel + 1, c, iters =>
    if w c = true ∧ c ≤ 12 then
      fitLoop w fuel (c + 1) (iters + 1)
    else
      (c, iters)

/-- Result of `fit_var_model`: the order actually fitted, how many refits
the whiteness loop performed, and the final whiteness/normality verdicts
(`conclusion == "reject"` of each test). -/
structure FitResult where
  final_order : Nat
  refits : Nat
  whiteness_reject : Bool
  normality_reject : Bool
deriving DecidableEq, Repr

/-- Model of `fit_var_model` (lines 80-103), over oracles: `selected` is
`select_order().selected_orders[information_criterion]`, `w c` / `n c` are
the whiteness / normality test verdicts for the fit at maxlags `c`. -/
def fit_var_model (selected : Nat) (w : Nat → Bool) (n : Nat → Bool) : FitResult :=
  let r := fitLoop w 13 selected 0
  ⟨r.1, r.2, w r.1, n r.1⟩

/-! ### Theorems: C1, C2 -/

/-- C1: `check_stationarity` classifies a series as stationary whenever
the ADF p-value is at most the threshold, and — the known defect — the
p-value > threshold branch also returns `True`, so the function returns
`true` for every input. -/
theorem check_stationarity_always_true :
    ∀ p_value threshold : ℚ, check_stationarity p_value threshold = true := by
  intro p t
  unfold check_stationarity
  split <;> rfl

private lemma fitLoop_always_reject (w : Nat → Bool) (hw : ∀ k, w k = true) :
    ∀ fuel c iters, 13 ≤ c + fuel →
      fitLoop w fuel c iters = (max 13 c, iters + (13 - c)) := by
  intro fuel
  induction fuel with
  | zero =>
    intro c iters hc
    show (c, iters) = _
    have h1 : max 13 c = c := by omega
    have h2 : 13 - c = 0 := by omega
    rw [h1, h2]
    simp
  | succ fuel ih =>
    intro c iters hc
    show (if w c = true ∧ c ≤ 12 then fitLoop w fuel (c + 1) (iters + 1)
      else (c, iters)) = _
    by_cases hle : c ≤ 12
    · rw [if_pos ⟨hw c, hle⟩]
      rw [ih (c + 1) (iters + 1) (by omega)]
      have h1 : max 13 (c + 1) = 13 := by omega
      have h2 : max 13 c = 13 := by omega
      rw [h1, h2]
      congr 1
      omega
    · rw [if_neg (by intro h; omega)]
      have h1 : max 13 c = c := by omega
      have h2 : 13 - c = 0 := by omega
      rw [h1, h2]
      simp

/-- C2: with a whiteness test that always rejects, `fit_var_model`'s
refinement loop terminates with the candidate order strictly above 12
(it is `max 13 initial`), after exactly `13 - initial` refit iterations
(so at most `13 - initial`). -/
theorem fit_var_model_always_reject (selected : Nat) (w n : Nat → Bool)
    (hw : ∀ k, w k = true) :
    12 < (fit_var_model selected w n).final_order ∧
      (fit_var_model selected w n).final_order = max 13 selected ∧
      (fit_var_model selected w n).refits = 13 - selected := by
  unfold fit_var_model
  rw [fitLoop_always_reject w hw 13 selected 0 (by omega)]
  refine ⟨by simp, rfl, by simp⟩

/-- Witness for C2 at initial order 2: 11 refits, final order 13. -/
theorem fit_var_model_always_reject_witness :
    12 < (fit_var_model 2 (fun _ => true) (fun _ => false)).final_order ∧
      (fit_var_model 2 (fun _ => true) (fun _ => false)).final_order = max 13 2 ∧
      (fit_var_model 2 (fun _ => true) (fun _ => false)).refits = 13 - 2 :=
  fit_var_model_always_reject 2 (fun _ => true) (fun _ => false) (fun _ => rfl)

/-! ### check_causality and do_structural_analysis (lines 49-69, 106-130) -/

/-- The ordered (cause, effect) pairs visited by `check_causality`'s two
nested loops over `variables`, with the `cause != effect` guard. -/
def check_causality_pairs (vars : List String) : List (String × String) :=
  vars.flatMap fun cause =>
    (vars.filter fun effect => cause != effect).map fun effect => (cause, effect)

/-- Python `dict` assignment `d[k] = b`: replace the value in place when
the key is present, otherwise append the new binding. -/
def dictInsert (d : List (String × Bool)) (k : String) (b : Bool) : List (String × Bool) :=
  if d.any fun p => p.1 == k then
    d.map fun p => if p.1 == k then (k, b) else p
  else
    d ++ [(k, b)]

/-- Model of `check_causality` (lines 49-69) when every `test_causality` call
succeeds: for each ordered pair of distinct variables, record
`conclusion == "reject"` under key `cause ++ "->" ++ effect`.
`verdict c e` is the oracle for the Wald causality test of the fitted
model. -/
def check_causality (vars : List String) (verdict : String → String → Bool) :
    List (String × Bool) :=
  (check_causality_pairs vars).foldl
    (fun d p => dictInsert d (p.1 ++ "->" ++ p.2) (verdict p.1 p.2)) []

/-- The nested loops of `check_causality` with an exception point:
`failAt = some i` means the `i`-th elementary operation of the
`do_structural_analysis` try-block raises.  Operations `0 ..
(pair count - 1)` are the causality tests; when the loop reaches
operation `i` it raises, and the local dict `acc` built so far is lost
(the exception propagates out of `check_causality`). -/
def causality_loop (verdict : String → String → Bool) (failAt : Option Nat) :
    List (String × String) → Nat → List (String × Bool) →
    Except Unit (List (String × Bool))
  | [], _, acc => Except.ok acc
  | p :: rest, i, acc =>
    if failAt = some i then
      Except.error ()
    else
      causality_loop verdict failAt rest (i + 1)
        (dictInsert acc (p.1 ++ "->" ++ p.2) (verdict p.1 p.2))

/-- Running `check_causality` under the exception model: either the completed
verdict dict, or an error raised at operation `failAt`.  A `failAt` at or
beyond the pair count does not fire inside this function (it models an
exception in the later impulse-response / variance-decomposition code). -/
def check_causality_run (vars : List String) (verdict : String → String → Bool)
    (failAt : Option Nat) : Except Unit (List (String × Bool)) :=
  causality_loop verdict failAt (check_causality_pairs vars) 0 []

/-- The verdicts `check_causality` had computed before the exception at
operation `failAt` fired: the dict accumulated over the pairs strictly
before that operation. -/
def verdicts_before_failure (vars : List String)
    (verdict : String → String → Bool) (failAt : Nat) : List (String × Bool) :=
  ((check_causality_pairs vars).take failAt).foldl
    (fun d p => dictInsert d (p.1 ++ "->" ++ p.2) (verdict p.1 p.2)) []

/-- Model of `do_structural_analysis` (lines 106-130).  `causality_results` starts
as `{}`; the try-block runs `check_causality` and then the
impulse-response / cumulative-response / variance-decomposition steps
(modelled by `failAt` at or beyond the pair count); `except Exception`
logs and `finally: return causality_results` returns whatever the
variable holds.  If `check_causality` itself raised, the variable was
never assigned and `{}` is returned. -/
def do_structural_analysis (vars : List String)
    (verdict : String → String → Bool) (failAt : Option Nat) :
    List (String × Bool) :=
  match check_causality_run vars verdict failAt with
  | Except.error _ => []
  | Except.ok res => res

/-! ### Theorems: C4 -/

private lemma causality_loop_fires (verdict : String → String → Bool) (failN : Nat) :
    ∀ (l : List (String × String)) (i : Nat) (acc : List (String × Bool)),
      i ≤ failN → failN < i + l.length →
      causality_loop verdict (some failN) l i acc = Except.error () := by
  intro l
  induction l with
  | nil => intro i acc h1 h2; simp at h2; omega
  | cons p rest ih =>
    intro i acc h1 h2
    unfold causality_loop
    by_cases hi : failN = i
    · simp [hi]
    · have : ¬ ((some failN : Option Nat) = some i) := by simp; omega
      rw [if_neg this]
      exact ih (i + 1) _ (by omega) (by simp at h2 ⊢; omega)

private lemma causality_loop_completes (verdict : String → String → Bool)
    (failAt : Option Nat) :
    ∀ (l : List (String × String)) (i : Nat) (acc : List (String × Bool)),
      (∀ n, failAt = some n → i + l.length ≤ n) →
      causality_loop verdict failAt l i acc =
        Except.ok (l.foldl
          (fun d p => dictInsert d (p.1 ++ "->" ++ p.2) (verdict p.1 p.2)) acc) := by
  intro l
  induction l with
  | nil => intro i acc _; rfl
  | cons p rest ih =>
    intro i acc h
    unfold causality_loop
    have : ¬ (failAt = some i) := by
      intro hc
      have := h i hc
      simp only [List.length_cons] at this
      omega
    rw [if_neg this]
    rw [ih (i + 1) _ (fun n hn => by
      have := h n hn
      simp only [List.length_cons] at this ⊢
      omega)]
    rfl

/-- C4 counterexample: variables `["a", "b"]`, the causality oracle
always answering `true`, and an exception raised during the second
causality test (operation index 1).  One verdict, `("a->b", true)`, had
been computed before the failure, yet `do_structural_analysis` returns
the empty map: the partial verdicts are discarded, refuting the claim
that the verdicts computed so far are returned. -/
theorem do_structural_analysis_discards_inner_verdicts :
    do_structural_analysis ["a", "b"] (fun _ _ => true) (some 1) = [] ∧
      verdicts_before_failure ["a", "b"] (fun _ _ => true) 1 = [("a->b", true)] ∧
      ([] : List (String × Bool)) ≠ [("a->b", true)] := by
  refine ⟨rfl, by decide, by decide⟩

/-- C4 amended: every exception raised in the `do_structural_analysis`
try-block is caught (the function always returns a verdict map, never
propagates), and the map returned is the one held by
`causality_results` at the time of the failure: the full
`check_causality` result when the exception fired after
`check_causality` completed (or no exception fired), but the empty map
when the exception fired inside `check_causality` — whose partial
verdicts are discarded. -/
theorem do_structural_analysis_failure_semantics (vars : List String)
    (verdict : String → String → Bool) (failAt : Option Nat) :
    (∀ n, failAt = some n → n < (check_causality_pairs vars).length →
        do_structural_analysis vars verdict failAt = []) ∧
      (∀ n, failAt = some n → (check_causality_pairs vars).length ≤ n →
        do_structural_analysis vars verdict failAt =
          check_causality vars verdict) ∧
      (failAt = none →
        do_structural_analysis vars verdict failAt =
          check_causality vars verdict) := by
  refine ⟨?_, ?_, ?_⟩
  · intro n hn hlt
    unfold do_structural_analysis check_causality_run
    subst hn
    rw [causality_loop_fires verdict n _ 0 [] (by omega) (by omega)]
  · intro n hn hle
    unfold do_structural_analysis check_causality_run
    rw [causality_loop_completes verdict failAt _ 0 []
      (fun m hm => by rw [hn] at hm; injection hm with h; omega)]
    rfl
  · intro hn
    unfold do_structural_analysis check_causality_run
    rw [causality_loop_completes verdict failAt _ 0 []
      (fun m hm => by rw [hn] at hm; cases hm)]
    rfl

/-- Witness for the C4 amended theorem: no exception fires, so the full
causality dict for `["a", "b"]` is returned. -/
theorem do_structural_analysis_failure_semantics_witness :
    do_structural_analysis ["a", "b"] (fun _ _ => false) none =
      check_causality ["a", "b"] (fun _ _ => false) :=
  (do_structural_analysis_failure_semantics ["a", "b"] (fun _ _ => false) none).2.2 rfl

/-! ### train_var_model (lines 133-195) -/

/-- Pandas column selection `df[cols]`: the columns named in `cols`, in
that order, with their data taken from `df`.  (Successful selection:
every requested name is present; a missing name is simply dropped here,
and the no-narrowing theorem shows none is ever missing in the loop.) -/
def select (t : Table) (cols : List String) : Table :=
  cols.filterMap fun c => ((t : List (String × List Nat)).find? fun q => q.1 == c).map
    fun q => (c, q.2)

/-- The data of column `c` in `t` (first match, `[]` when absent). -/
def valOf (t : Table) (c : String) : List Nat :=
  (((t : List (String × List Nat)).find? fun q => q.1 == c).map fun q => q.2).getD []

/-- Row slice `df[:-6]`: drop the 6 held-out test observations from every column. -/
def trainSlice (t : Table) : Table :=
  (t : List (String × List Nat)).map fun p => (p.1, p.2.take (p.2.length - 6))

/-- Oracles for the statsmodels calls made inside the permutation loop.
Every oracle is a function of the (permuted) training table it was
invoked on, plus the candidate lag order where relevant; oracles model
library calls that return normally. -/
structure VarBackend where
  select_order : Table → Nat
  whiteness : Table → Nat → Bool
  normality : Table → Nat → Bool
  k_ar : Table → Nat → Nat
  causality : Table → Nat → String → String → Bool
  fail_at : Table → Nat → Option Nat

/-- What one iteration of the permutation loop produces: the permutation,
the reordered training table handed to `VAR(...)`, the fitted order, the
whiteness/normality verdicts, and the causality dict returned by
`do_structural_analysis`. -/
structure PermResult where
  perm : List String
  dataset : Table
  final_order : Nat
  whiteness_reject : Bool
  normality_reject : Bool
  causality : List (String × Bool)
deriving DecidableEq

/-- The mutable `result_analysis` dict, split by its statically known
keys; the causality keys (all of the form `cause ++ "->" ++ effect`,
disjoint from the fixed keys) live in the `causality` map. -/
structure TrainState where
  train_sample_size : List Nat
  var_order : Finset Nat
  serial_correlation : Finset Bool
  residual_white_noise : Finset Bool
  causality : String → Option (Finset Bool)

/-- Lines 188-193: `if test in result_analysis: add` else fresh
single-element set. -/
def addVerdict (m : String → Option (Finset Bool)) (k : String) (b : Bool) :
    String → Option (Finset Bool) :=
  fun k' => if k' = k then some (insert b ((m k).getD ∅)) else m k'

/-- The aggregated verdict set at key `k` (empty when the key is absent). -/
def getSet (m : String → Option (Finset Bool)) (k : String) : Finset Bool :=
  (m k).getD ∅

/-- The VAR fit performed for permutation `perm` of the current training
table `td`: `VAR(train_dataset)` followed by `fit_var_model`. -/
def step_fit (B : VarBackend) (td : Table) (perm : List String) : FitResult :=
  let tsel := select td perm
  fit_var_model (B.select_order tsel) (B.whiteness tsel) (B.normality tsel)

/-- The causality dict `do_structural_analysis` returns for permutation
`perm` of the current training table `td` (the causality tests run over
the canonical `vars` tuple, not the permutation). -/
def step_causality_results (B : VarBackend) (vars : List String) (td : Table)
    (perm : List String) : List (String × Bool) :=
  let tsel := select td perm
  do_structural_analysis vars
    (B.causality tsel (step_fit B td perm).final_order)
    (B.fail_at tsel (step_fit B td perm).final_order)

/-- One iteration of the `for permutation_index, permutation in
enumerate(itertools.permutations(variables))` loop (lines 152-193),
threading the reassigned `train_dataset`, the `result_analysis` state
and the list of per-permutation results. -/
def train_step (B : VarBackend) (vars : List String) :
    Table × TrainState × List PermResult → List String →
    Table × TrainState × List PermResult :=
  fun s perm =>
    let td := select s.1 perm                     -- train_dataset = train_dataset[list(permutation)]
    let fit := step_fit B s.1 perm
    let st := s.2.1
    let st1 : TrainState :=
      { st with
        var_order := insert (B.k_ar td fit.final_order) st.var_order
        serial_correlation := insert fit.whiteness_reject st.serial_correlation
        residual_white_noise := insert (! fit.normality_reject) st.residual_white_noise }
    let cres := step_causality_results B vars s.1 perm
    let st2 : TrainState :=
      { st1 with
        causality := cres.foldl (fun m kv => addVerdict m kv.1 kv.2) st1.causality }
    (td, st2,
      s.2.2 ++ [⟨perm, td, fit.final_order, fit.whiteness_reject,
                 fit.normality_reject, cres⟩])

/-- Model of `train_var_model` (lines 133-195): split off the last 6 observations,
initialise `result_analysis`, then run the permutation loop over
`itertools.permutations(variables)`.  `List.permutations'` enumerates
exactly the positional permutations `itertools.permutations` yields
(in a different order, which no claim depends on); it is used because it
is structurally recursive, hence evaluable.  Returns the final state and
the per-permutation results. -/
def train_var_model (B : VarBackend) (vars : List String)
    (consolidated : Table) : TrainState × List PermResult :=
  let train0 := trainSlice consolidated
  let init : TrainState :=
    { train_sample_size := [(train0.map fun p => p.2).flatten.dedup.length]
      var_order := ∅
      serial_correlation := ∅
      residual_white_noise := ∅
      causality := fun _ => none }
  let r := vars.permutations'.foldl (train_step B vars) (train0, init, [])
  (r.2.1, r.2.2)

/-! ### Theorems: C3 -/

private lemma train_step_perm_map (B : VarBackend) (vars : List String)
    (td : Table) (st : TrainState) (rs : List PermResult) (p : List String) :
    (train_step B vars (td, st, rs) p).2.2.map PermResult.perm =
      rs.map PermResult.perm ++ [p] := by
  simp [train_step]

private lemma train_fold_perm_map (B : VarBackend) (vars : List String) :
    ∀ (ps : List (List String)) (td : Table) (st : TrainState) (rs : List PermResult),
      (ps.foldl (train_step B vars) (td, st, rs)).2.2.map PermResult.perm =
        rs.map PermResult.perm ++ ps := by
  intro ps
  induction ps with
  | nil => intro td st rs; simp
  | cons p ps ih =>
    intro td st rs
    rw [List.foldl_cons]
    rcases hstep : train_step B vars (td, st, rs) p with ⟨td1, st1, rs1⟩
    have h1 : rs1.map PermResult.perm = rs.map PermResult.perm ++ [p] := by
      have := train_step_perm_map B vars td st rs p
      rw [hstep] at this
      exact this
    rw [ih td1 st1 rs1, h1]
    simp

/-- C3: `train_var_model` iterates over exactly the `N!` permutations of
the `N`-element variable tuple, producing one permutation result per
permutation — the results correspond one-to-one, in order, to
`itertools.permutations(variables)`, so there are `N!` of them
(hence 6 for `N = 3`). -/
theorem train_var_model_permutation_count (B : VarBackend) (vars : List String)
    (consolidated : Table) :
    ((train_var_model B vars consolidated).2).map PermResult.perm = vars.permutations' ∧
      ((train_var_model B vars consolidated).2).length = Nat.factorial vars.length := by
  have hmap : ((train_var_model B vars consolidated).2).map PermResult.perm
      = vars.permutations' := by
    simp only [train_var_model]
    rw [train_fold_perm_map]
    simp
  refine ⟨hmap, ?_⟩
  have h1 := congrArg List.length hmap
  have h2 : vars.permutations'.length = Nat.factorial vars.length := by
    rw [← (List.permutations_perm_permutations' vars).length_eq,
      List.length_permutations]
  simpa [h2] using h1

/-! ### Theorems: C6 -/

private lemma getSet_addVerdict_mono (m : String → Option (Finset Bool))
    (k k' : String) (b b' : Bool) (h : b ∈ getSet m k) :
    b ∈ getSet (addVerdict m k' b') k := by
  unfold getSet addVerdict at *
  by_cases hk : k = k'
  · subst hk
    simp only [if_pos rfl, Option.getD_some]
    exact Finset.mem_insert_of_mem h
  · simp only [if_neg hk]
    exact h

private lemma getSet_addVerdict_self (m : String → Option (Finset Bool))
    (k : String) (b : Bool) : b ∈ getSet (addVerdict m k b) k := by
  unfold getSet addVerdict
  simp

private lemma foldl_addVerdict_mono (l : List (String × Bool)) :
    ∀ (m : String → Option (Finset Bool)) (k : String) (b : Bool),
      b ∈ getSet m k →
      b ∈ getSet (l.foldl (fun m kv => addVerdict m kv.1 kv.2) m) k := by
  induction l with
  | nil => intro m k b h; exact h
  | cons a l ih =>
    intro m k b h
    exact ih _ k b (getSet_addVerdict_mono m k a.1 b a.2 h)

private lemma foldl_addVerdict_mem (l : List (String × Bool)) :
    ∀ (m : String → Option (Finset Bool)) (k : String) (b : Bool),
      (k, b) ∈ l →
      b ∈ getSet (l.foldl (fun m kv => addVerdict m kv.1 kv.2) m) k := by
  induction l with
  | nil => intro m k b h; cases h
  | cons a l ih =>
    intro m k b h
    rcases List.mem_cons.mp h with h1 | h2
    · rw [List.foldl_cons]
      refine foldl_addVerdict_mono l _ k b ?_
      rw [← h1]
      exact getSet_addVerdict_self m k b
    · exact ih _ k b h2

private lemma train_step_causality_state (B : VarBackend) (vars : List String)
    (td : Table) (st : TrainState) (rs : List PermResult) (p : List String) :
    (train_step B vars (td, st, rs) p).2.1.causality =
      (step_causality_results B vars td p).foldl
        (fun m kv => addVerdict m kv.1 kv.2) st.causality := rfl

private lemma train_step_results_causality (B : VarBackend) (vars : List String)
    (td : Table) (st : TrainState) (rs : List PermResult) (p : List String)
    (q : PermResult) (h : q ∈ (train_step B vars (td, st, rs) p).2.2) :
    q ∈ rs ∨ q.causality = step_causality_results B vars td p := by
  simp only [train_step, List.mem_append, List.mem_singleton] at h
  rcases h with h1 | h2
  · exact Or.inl h1
  · right
    rw [h2]

private lemma train_fold_causality (B : VarBackend) (vars : List String) :
    ∀ (ps : List (List String)) (td : Table) (st : TrainState) (rs : List PermResult),
      (∀ q ∈ rs, ∀ k b, (k, b) ∈ q.causality → b ∈ getSet st.causality k) →
      ∀ q ∈ (ps.foldl (train_step B vars) (td, st, rs)).2.2, ∀ k b,
        (k, b) ∈ q.causality →
        b ∈ getSet (ps.foldl (train_step B vars) (td, st, rs)).2.1.causality k := by
  intro ps
  induction ps with
  | nil =>
    intro td st rs hpre q hq k b hkb
    exact hpre q hq k b hkb
  | cons p ps ih =>
    intro td st rs hpre
    rw [List.foldl_cons]
    rcases hstep : train_step B vars (td, st, rs) p with ⟨td1, st1, rs1⟩
    refine ih td1 st1 rs1 ?_
    intro q hq k b hkb
    have hst1 : st1.causality =
        (step_causality_results B vars td p).foldl
          (fun m kv => addVerdict m kv.1 kv.2) st.causality := by
      have := train_step_causality_state B vars td st rs p
      rw [hstep] at this
      exact this
    have hq' : q ∈ rs ∨ q.causality = step_causality_results B vars td p := by
      have := train_step_results_causality B vars td st rs p q
      rw [hstep] at this
      exact this hq
    rcases hq' with hold | hnew
    · rw [hst1]
      exact foldl_addVerdict_mono _ _ k b (hpre q hold k b hkb)
    · rw [hst1]
      exact foldl_addVerdict_mem _ _ k b (hnew ▸ hkb)

/-- C6: the causality verdicts accumulated by `train_var_model` form, per
ordered-pair key, the set of distinct verdicts observed across
permutations: whenever one permutation result reports key `k` with
verdict `true` and another reports it with verdict `false`, the final
aggregated set at `k` contains both `true` and `false` (neither is
overwritten). -/
theorem train_var_model_verdict_sets (B : VarBackend) (vars : List String)
    (consolidated : Table) (k : String) (r1 r2 : PermResult)
    (h1 : r1 ∈ (train_var_model B vars consolidated).2)
    (h2 : r2 ∈ (train_var_model B vars consolidated).2)
    (hk1 : (k, true) ∈ r1.causality)
    (hk2 : (k, false) ∈ r2.causality) :
    true ∈ getSet (train_var_model B vars consolidated).1.causality k ∧
      false ∈ getSet (train_var_model B vars consolidated).1.causality k := by
  have hmain := train_fold_causality B vars vars.permutations'
    (trainSlice consolidated)
    { train_sample_size := [((trainSlice consolidated).map fun p => p.2).flatten.dedup.length]
      var_order := ∅
      serial_correlation := ∅
      residual_white_noise := ∅
      causality := fun _ => none }
    [] (by intro q hq; cases hq)
  exact ⟨hmain r1 h1 k true hk1, hmain r2 h2 k false hk2⟩

/-- A concrete backend for witnesses: order selection always 0, whiteness
and normality never reject, no structural-analysis exception, and a
causality test that rejects exactly when the permuted table's columns are
in the order `["a", "b"]` — so the two permutations disagree. -/
def witness_backend : VarBackend :=
  { select_order := fun _ => 0
    whiteness := fun _ _ => false
    normality := fun _ _ => false
    k_ar := fun _ o => o
    causality := fun t _ _ _ => (t : List (String × List Nat)).map Prod.fst == ["a", "b"]
    fail_at := fun _ _ => none }

/-- A concrete two-variable consolidated table with seven time buckets. -/
def witness_table : Table :=
  [("a", [0, 1, 2, 3, 4, 5, 6]), ("b", [0, 1, 2, 3, 4, 5, 6])]

/-- Witness for C6: with `witness_backend`, permutation `["a", "b"]`
reports `"a->b"` causal and permutation `["b", "a"]` reports it
non-causal; the aggregated set contains both verdicts. -/
theorem train_var_model_verdict_sets_witness :
    true ∈ getSet (train_var_model witness_backend ["a", "b"] witness_table).1.causality "a->b" ∧
      false ∈ getSet (train_var_model witness_backend ["a", "b"] witness_table).1.causality "a->b" :=
  train_var_model_verdict_sets witness_backend ["a", "b"] witness_table "a->b"
    ⟨["a", "b"], [("a", [0]), ("b", [0])], 0, false, false,
      [("a->b", true), ("b->a", true)]⟩
    ⟨["b", "a"], [("b", [0]), ("a", [0])], 0, false, false,
      [("a->b", false), ("b->a", false)]⟩
    (by decide) (by decide) (by decide) (by decide)

/-! ### Theorems: C7 -/

private lemma find_col (t : Table) (c : String)
    (h : c ∈ t.map Prod.fst) :
    t.find? (fun q => q.1 == c) = some (c, valOf t c) := by
  induction t with
  | nil => cases h
  | cons a t ih =>
    by_cases hac : a.1 = c
    · rw [List.find?_cons_of_pos _ (by simp [hac])]
      unfold valOf
      rw [List.find?_cons_of_pos _ (by simp [hac])]
      simp [← hac]
    · rw [List.find?_cons_of_neg _ (by simp [hac])]
      have hmem : c ∈ t.map Prod.fst := by
        rcases List.mem_map.mp h with ⟨q, hq, hq2⟩
        rcases List.mem_cons.mp hq with h1 | h2
        · exact absurd (h1 ▸ hq2) hac
        · exact List.mem_map.mpr ⟨q, h2, hq2⟩
      rw [ih hmem]
      unfold valOf
      rw [List.find?_cons_of_neg _ (by simp [hac]), ih hmem]

private lemma select_eq_map (t : Table) (p : List String)
    (h : ∀ c ∈ p, c ∈ t.map Prod.fst) :
    select t p = p.map fun c => (c, valOf t c) := by
  induction p with
  | nil => rfl
  | cons c p ih =>
    unfold select
    rw [List.filterMap_cons]
    rw [find_col t c (h c (List.mem_cons_self c p))]
    show (c, valOf t c) :: select t p = _
    rw [ih fun d hd => h d (List.mem_cons_of_mem c hd)]
    rfl

private lemma select_map_fst (t : Table) (p : List String)
    (h : ∀ c ∈ p, c ∈ t.map Prod.fst) :
    (select t p).map Prod.fst = p := by
  rw [select_eq_map t p h, List.map_map]
  have hcomp : (Prod.fst ∘ fun c => ((c, valOf t c) : String × List Nat)) = id := rfl
  rw [hcomp, List.map_id]

private lemma valOf_map_self (p : List String) (f : String → List Nat) (c : String)
    (hc : c ∈ p) :
    valOf (p.map fun d => (d, f d)) c = f c := by
  induction p with
  | nil => cases hc
  | cons a p ih =>
    by_cases hac : a = c
    · unfold valOf
      rw [List.map_cons, List.find?_cons_of_pos _ (by simp [hac])]
      simp [hac]
    · rcases List.mem_cons.mp hc with h1 | h2
      · exact absurd h1.symm hac
      · unfold valOf
        rw [List.map_cons, List.find?_cons_of_neg _ (by simp [hac])]
        have := ih h2
        unfold valOf at this
        exact this

private lemma select_stable (t0 t : Table) (vs p : List String)
    (hp : p.Perm vs)
    (ht : ∀ c ∈ vs, c ∈ t.map Prod.fst)
    (ht0 : ∀ c ∈ vs, c ∈ t0.map Prod.fst)
    (hval : ∀ c ∈ vs, valOf t c = valOf t0 c) :
    select t p = select t0 p := by
  have hmem : ∀ c ∈ p, c ∈ vs := fun c hc => hp.mem_iff.mp hc
  rw [select_eq_map t p fun c hc => ht c (hmem c hc)]
  rw [select_eq_map t0 p fun c hc => ht0 c (hmem c hc)]
  refine List.map_congr_left fun c hc => ?_
  rw [hval c (hmem c hc)]

private lemma train_step_dataset (B : VarBackend) (vars : List String)
    (td : Table) (st : TrainState) (rs : List PermResult) (p : List String) :
    (train_step B vars (td, st, rs) p).1 = select td p := rfl

private lemma train_step_dataset_map (B : VarBackend) (vars : List String)
    (td : Table) (st : TrainState) (rs : List PermResult) (p : List String) :
    (train_step B vars (td, st, rs) p).2.2.map PermResult.dataset =
      rs.map PermResult.dataset ++ [select td p] := by
  simp [train_step]

private lemma train_fold_datasets (B : VarBackend) (vars : List String) (t0 : Table)
    (ht0 : ∀ c ∈ vars, c ∈ t0.map Prod.fst) :
    ∀ (ps : List (List String)) (td : Table) (st : TrainState) (rs : List PermResult),
      (∀ p ∈ ps, p.Perm vars) →
      (∀ c ∈ vars, c ∈ td.map Prod.fst) →
      (∀ c ∈ vars, valOf td c = valOf t0 c) →
      (ps.foldl (train_step B vars) (td, st, rs)).2.2.map PermResult.dataset =
        rs.map PermResult.dataset ++ ps.map fun p => select t0 p := by
  intro ps
  induction ps with
  | nil => intro td st rs _ _ _; simp
  | cons p ps ih =>
    intro td st rs hperm hmem hval
    have hpv : p.Perm vars := hperm p (List.mem_cons_self p ps)
    have hmemp : ∀ c ∈ p, c ∈ vars := fun c hc => hpv.mem_iff.mp hc
    have hsel : select td p = select t0 p :=
      select_stable t0 td vars p hpv hmem ht0 hval
    rw [List.foldl_cons]
    rcases hstep : train_step B vars (td, st, rs) p with ⟨td1, st1, rs1⟩
    have htd1 : td1 = select td p := by
      have := train_step_dataset B vars td st rs p
      rw [hstep] at this
      exact this
    have hrs1 : rs1.map PermResult.dataset
        = rs.map PermResult.dataset ++ [select td p] := by
      have := train_step_dataset_map B vars td st rs p
      rw [hstep] at this
      exact this
    have hmem1 : ∀ c ∈ vars, c ∈ td1.map Prod.fst := by
      intro c hc
      rw [htd1, select_map_fst td p fun d hd => hmem d (hmemp d hd)]
      exact hpv.mem_iff.mpr hc
    have hval1 : ∀ c ∈ vars, valOf td1 c = valOf t0 c := by
      intro c hc
      have hcp : c ∈ p := hpv.mem_iff.mpr hc
      rw [htd1, select_eq_map td p fun d hd => hmem d (hmemp d hd)]
      rw [valOf_map_self p (valOf td) c hcp]
      exact hval c hc
    rw [ih td1 st1 rs1 (fun q hq => hperm q (List.mem_cons_of_mem p hq)) hmem1 hval1]
    rw [hrs1, hsel]
    simp

/-- C7: within `train_var_model`'s loop, the table handed to the VAR
fitter at each iteration is the full training data reordered to that
iteration's permutation — although the source reassigns `train_dataset`
to its own column-selection each time, every permutation requests all
columns of the variable tuple, so no iteration narrows the available
columns and the iterative reassignment equals reordering the full
training table afresh for every permutation. -/
theorem train_var_model_no_column_narrowing (B : VarBackend)
    (vars : List String) (consolidated : Table)
    (hcols : (trainSlice consolidated).map Prod.fst = vars) :
    ((train_var_model B vars consolidated).2).map PermResult.dataset =
      vars.permutations'.map fun p => select (trainSlice consolidated) p := by
  have ht0 : ∀ c ∈ vars, c ∈ (trainSlice consolidated).map Prod.fst := by
    intro c hc
    rw [hcols]
    exact hc
  have := train_fold_datasets B vars (trainSlice consolidated) ht0
    vars.permutations' (trainSlice consolidated)
    { train_sample_size :=
        [((trainSlice consolidated).map fun p => p.2).flatten.dedup.length]
      var_order := ∅
      serial_correlation := ∅
      residual_white_noise := ∅
      causality := fun _ => none }
    []
    (fun p hp => List.mem_permutations'.mp hp)
    ht0
    (fun c _ => rfl)
  exact this

/-- Witness for C7: two variables, seven time buckets; both iterations
receive the full two-column training table, reordered. -/
theorem train_var_model_no_column_narrowing_witness :
    ((train_var_model witness_backend ["a", "b"] witness_table).2).map PermResult.dataset =
      List.map (fun p => select (trainSlice witness_table) p)
        (List.permutations' ["a", "b"]) :=
  train_var_model_no_column_narrowing witness_backend ["a", "b"] witness_table
    (by decide)

/-! ### Report-file semantics (lines 162-169) -/

/-- A CPython file object: its on-disk contents and the stream position
(in characters; the unit is irrelevant to the claims). -/
structure PyFile where
  contents : String
  pos : Nat

/-- Python `open(path, "a")`: opening in append mode positions the stream at the
end of the existing file. -/
def open_append (existing : String) : PyFile :=
  ⟨existing, existing.length⟩

/-- Python `file.truncate()` with no argument resizes the file to the current
stream position. -/
def file_truncate (f : PyFile) : PyFile :=
  ⟨⟨f.contents.data.take f.pos⟩, f.pos⟩

/-- Python `file.write(s)` in append mode: bytes are always written at the end
of the file, wherever the position is. -/
def file_write (f : PyFile) (s : String) : PyFile :=
  ⟨f.contents ++ s, f.contents.length + s.length⟩

/-- Lines 162-169 of `train_var_model`: the per-(user, permutation)
report file is opened with mode `"a"`, `file.truncate()` is called, and
the four summaries are written.  `existing` is the file's contents from
any previous run. -/
def write_permutation_report (existing : String) (summaries : List String) : String :=
  (summaries.foldl file_write (file_truncate (open_append existing))).contents

/-! ### Theorems: C5 -/

/-- C5 (code bug): the report file is NOT rewritten from scratch.  The
file is opened in append mode, which places the position at the end, so
the argument-less `truncate()` resizes the file to its current size — a
no-op — and the write appends.  Evaluating the model at a file left over
from a previous run: old contents survive and the new summary is
appended after them, contradicting the claimed truncate-then-write
semantics (which would leave exactly `"NEW"`). -/
theorem report_file_appends_across_runs :
    write_permutation_report "OLD" ["NEW"] = "OLDNEW" ∧
      ("OLDNEW" : String) ≠ "NEW" := by
  exact ⟨rfl, by decide⟩

/-! ### consolidate_dataframe / analyse_user / analyse_project
    (lines 209-238, 241-288, 291-313) -/

/-- Modelled from the spec: `MERGES_PERFORMED_COLUMN`, a metric-name
constant imported from the aggregation module, which is not part of the
analysed source; the spec calls the variable "merges performed".  Only
its identity as a distinct column label matters. -/
def MERGES_PERFORMED_COLUMN : String := "merges_performed"

/-- Modelled from the spec: `MERGES_REQUESTED_COLUMN`, a metric-name
constant imported from the aggregation module ("merge requests received"
in the spec). -/
def MERGES_REQUESTED_COLUMN : String := "merges_requested"

/-- Modelled from the spec: `MERGES_SUCCESSFUL_COLUMN`, a metric-name
constant imported from the aggregation module ("merges successfully
completed" in the spec). -/
def MERGES_SUCCESSFUL_COLUMN : String := "merges_successful"

/-- The union of time buckets over the fetched per-variable series: the
index of `pd.concat(data, axis=1)`. -/
def consolidated_index (data : Table) : List Nat :=
  ((data.map fun p => p.2).flatten).dedup

/-- Model of `pd.concat(data, axis=1)` followed by `fillna(0)`: every column now
spans the union index (missing cells zero-filled; cell values stay
opaque, so a column is its index list). -/
def concat_align (data : Table) : Table :=
  data.map fun p => (p.1, consolidated_index data)

/-- Row count `len(df)`: the number of rows (0 for a frame with no columns). -/
def df_rows (t : Table) : Nat :=
  match t with
  | [] => 0
  | p :: _ => p.2.length

/-- Model of `consolidate_dataframe` (lines 209-238).  The fetched raw series are
inputs (`performed`, `requested`, `merged` — the external data-provider
results for this user).  The source appends each requested variable's
frame to `data` in order, early-returning an empty `pd.DataFrame()`
(here `some []`) when the merges-performed or merges-successful series
is empty — the merges-requested series gets no such check; the two early
returns are written here as guards ahead of the `data` construction,
which is equivalent because each fires exactly when the source's
corresponding `return` executes.  `pd.concat` of an empty `data` list
raises (`none`). -/
def consolidate_dataframe (vs : List String)
    (performed requested merged : List Nat) : Option Table :=
  if MERGES_PERFORMED_COLUMN ∈ vs ∧ performed.length = 0 then
    some []   -- "User %s does not merge PRs for other developers"
  else if MERGES_SUCCESSFUL_COLUMN ∈ vs ∧ merged.length = 0 then
    some []   -- "User %s does not have PRs merged by other developers"
  else
    let data : Table :=
      (if MERGES_PERFORMED_COLUMN ∈ vs then [(MERGES_PERFORMED_COLUMN, performed)] else []) ++
      (if MERGES_REQUESTED_COLUMN ∈ vs then [(MERGES_REQUESTED_COLUMN, requested)] else []) ++
      (if MERGES_SUCCESSFUL_COLUMN ∈ vs then [(MERGES_SUCCESSFUL_COLUMN, merged)] else [])
    if data.isEmpty then
      none    -- pd.concat([]) raises ValueError
    else
      some (concat_align data)

/-- Outcome of the diagnostic-plotting block of `analyse_user`
(lines 277-283): succeeds, raises `ValueError`, or raises some other
exception. -/
inductive PlotOutcome
  | ok
  | valueError
  | other (msg : String)
deriving DecidableEq

/-- Model of `df.diff().dropna()`: first-order differencing makes the first row
NaN and `dropna` removes it, so each column loses its leading bucket. -/
def diff_dropna (t : Table) : Table :=
  t.map fun p => (p.1, p.2.drop 1)

/-- Model of `analyse_user` (lines 241-288): consolidate; `None` when the frame
is empty; per-variable totals and stationarity flags (all `True`, cf.
`check_stationarity`) are recorded in the result; difference, train the
VAR models over every permutation; then attempt the diagnostic plots —
only a `ValueError` there is caught and logged, any other exception
propagates; finally the accumulated results are returned. -/
def analyse_user (B : VarBackend) (vs : List String)
    (performed requested merged : List Nat) (plots : PlotOutcome) :
    Except String (Option (TrainState × List PermResult)) :=
  match consolidate_dataframe vs performed requested merged with
  | none => Except.error "concat"   -- pd.concat([]) error propagates to the caller
  | some consolidated =>
    if df_rows consolidated = 0 then
      Except.ok none                -- "No data points for user %s", return None
    else
      let after_diff := diff_dropna consolidated
      let var_results := train_var_model B vs (select after_diff vs)
      match plots with
      | PlotOutcome.other msg => Except.error msg   -- uncaught plotting exception
      | _ => Except.ok (some var_results)           -- ValueError caught / no failure

/-- The project loop of `analyse_project` (lines 299-310): each user is
analysed inside `try/except Exception`; a truthy result is appended to
`merger_data`, a raised exception (or a `None` result) leaves the user
out of the final summary table.  Returns the users that made it into the
table. -/
def analyse_project {α : Type} (users : List String)
    (run : String → Except String (Option α)) : List String :=
  users.foldl
    (fun acc u =>
      match run u with
      | Except.ok (some _) => acc ++ [u]
      | _ => acc)
    []

/-! ### Theorems: C8, C9, C10 -/

/-- C8: when the user's merges-performed raw series is empty (and that
variable is requested), `consolidate_dataframe` returns the empty frame
— a value, not an exception — and `analyse_user` returns `None` without
raising, whatever the other series and the plotting outcome are. -/
theorem analyse_user_no_merges_performed (B : VarBackend) (vs : List String)
    (requested merged : List Nat) (plots : PlotOutcome)
    (hmem : MERGES_PERFORMED_COLUMN ∈ vs) :
    consolidate_dataframe vs [] requested merged = some [] ∧
      analyse_user B vs [] requested merged plots = Except.ok none := by
  have hcons : consolidate_dataframe vs [] requested merged = some [] := by
    unfold consolidate_dataframe
    rw [if_pos ⟨hmem, rfl⟩]
  refine ⟨hcons, ?_⟩
  unfold analyse_user
  rw [hcons]
  rfl

/-- Witness for C8: the canonical three-variable tuple, non-empty
requested/merged series, empty merges-performed series. -/
theorem analyse_user_no_merges_performed_witness :
    consolidate_dataframe
        [MERGES_PERFORMED_COLUMN, MERGES_REQUESTED_COLUMN, MERGES_SUCCESSFUL_COLUMN]
        [] [0, 1] [2] = some [] ∧
      analyse_user witness_backend
        [MERGES_PERFORMED_COLUMN, MERGES_REQUESTED_COLUMN, MERGES_SUCCESSFUL_COLUMN]
        [] [0, 1] [2] PlotOutcome.ok = Except.ok none :=
  analyse_user_no_merges_performed witness_backend
    [MERGES_PERFORMED_COLUMN, MERGES_REQUESTED_COLUMN, MERGES_SUCCESSFUL_COLUMN]
    [0, 1] [2] PlotOutcome.ok (by decide)

/-- C9: the emptiness check covers only the merges-performed and
merges-successful series.  With the canonical three-variable tuple, an
empty merges-requested series and non-empty other two,
`consolidate_dataframe` does not return the empty "user not analyzable"
frame: the requested column is included (zero-filled over the union
index) and `analyse_user` proceeds to a full analysis instead of
skipping the user. -/
theorem consolidate_keeps_empty_requested (B : VarBackend)
    (performed merged : List Nat) (hp : performed ≠ []) (hm : merged ≠ []) :
    consolidate_dataframe
        [MERGES_PERFORMED_COLUMN, MERGES_REQUESTED_COLUMN, MERGES_SUCCESSFUL_COLUMN]
        performed [] merged =
      some (concat_align
        [(MERGES_PERFORMED_COLUMN, performed), (MERGES_REQUESTED_COLUMN, []),
         (MERGES_SUCCESSFUL_COLUMN, merged)]) ∧
      (concat_align
        [(MERGES_PERFORMED_COLUMN, performed), (MERGES_REQUESTED_COLUMN, []),
         (MERGES_SUCCESSFUL_COLUMN, merged)]).map Prod.fst =
        [MERGES_PERFORMED_COLUMN, MERGES_REQUESTED_COLUMN, MERGES_SUCCESSFUL_COLUMN] ∧
      (∃ r, analyse_user B
        [MERGES_PERFORMED_COLUMN, MERGES_REQUESTED_COLUMN, MERGES_SUCCESSFUL_COLUMN]
        performed [] merged PlotOutcome.ok = Except.ok (some r)) := by
  have hp0 : performed.length ≠ 0 := fun h => hp (List.length_eq_zero.mp h)
  have hm0 : merged.length ≠ 0 := fun h => hm (List.length_eq_zero.mp h)
  have hcons : consolidate_dataframe
      [MERGES_PERFORMED_COLUMN, MERGES_REQUESTED_COLUMN, MERGES_SUCCESSFUL_COLUMN]
      performed [] merged =
      some (concat_align
        [(MERGES_PERFORMED_COLUMN, performed), (MERGES_REQUESTED_COLUMN, []),
         (MERGES_SUCCESSFUL_COLUMN, merged)]) := by
    unfold consolidate_dataframe
    rw [if_neg (fun h => hp0 h.2), if_neg (fun h => hm0 h.2)]
    rw [if_pos (show MERGES_PERFORMED_COLUMN ∈
        [MERGES_PERFORMED_COLUMN, MERGES_REQUESTED_COLUMN, MERGES_SUCCESSFUL_COLUMN]
        by decide)]
    rw [if_pos (show MERGES_REQUESTED_COLUMN ∈
        [MERGES_PERFORMED_COLUMN, MERGES_REQUESTED_COLUMN, MERGES_SUCCESSFUL_COLUMN]
        by decide)]
    rw [if_pos (show MERGES_SUCCESSFUL_COLUMN ∈
        [MERGES_PERFORMED_COLUMN, MERGES_REQUESTED_COLUMN, MERGES_SUCCESSFUL_COLUMN]
        by decide)]
    rfl
  have hrow : df_rows (concat_align
      [(MERGES_PERFORMED_COLUMN, performed), (MERGES_REQUESTED_COLUMN, []),
       (MERGES_SUCCESSFUL_COLUMN, merged)]) ≠ 0 := by
    show (consolidated_index _).length ≠ 0
    intro hlen
    have hnil := List.length_eq_zero.mp hlen
    unfold consolidated_index at hnil
    rw [List.dedup_eq_nil] at hnil
    simp only [List.map_cons, List.map_nil, List.flatten_cons, List.flatten_nil,
      List.append_nil, List.nil_append, List.append_eq_nil] at hnil
    exact hp hnil.1
  refine ⟨hcons, rfl, ?_⟩
  refine ⟨train_var_model B
      [MERGES_PERFORMED_COLUMN, MERGES_REQUESTED_COLUMN, MERGES_SUCCESSFUL_COLUMN]
      (select (diff_dropna (concat_align
        [(MERGES_PERFORMED_COLUMN, performed), (MERGES_REQUESTED_COLUMN, []),
         (MERGES_SUCCESSFUL_COLUMN, merged)]))
        [MERGES_PERFORMED_COLUMN, MERGES_REQUESTED_COLUMN, MERGES_SUCCESSFUL_COLUMN]), ?_⟩
  unfold analyse_user
  rw [hcons]
  show (if df_rows (concat_align
      [(MERGES_PERFORMED_COLUMN, performed), (MERGES_REQUESTED_COLUMN, []),
       (MERGES_SUCCESSFUL_COLUMN, merged)]) = 0 then Except.ok none else _) = _
  rw [if_neg hrow]

/-- Witness for C9: singleton performed/merged series, empty requested
series. -/
theorem consolidate_keeps_empty_requested_witness :
    consolidate_dataframe
        [MERGES_PERFORMED_COLUMN, MERGES_REQUESTED_COLUMN, MERGES_SUCCESSFUL_COLUMN]
        [0] [] [1] =
      some (concat_align
        [(MERGES_PERFORMED_COLUMN, [0]), (MERGES_REQUESTED_COLUMN, []),
         (MERGES_SUCCESSFUL_COLUMN, [1])]) ∧
      (concat_align
        [(MERGES_PERFORMED_COLUMN, [0]), (MERGES_REQUESTED_COLUMN, []),
         (MERGES_SUCCESSFUL_COLUMN, [1])]).map Prod.fst =
        [MERGES_PERFORMED_COLUMN, MERGES_REQUESTED_COLUMN, MERGES_SUCCESSFUL_COLUMN] ∧
      (∃ r, analyse_user witness_backend
        [MERGES_PERFORMED_COLUMN, MERGES_REQUESTED_COLUMN, MERGES_SUCCESSFUL_COLUMN]
        [0] [] [1] PlotOutcome.ok = Except.ok (some r)) :=
  consolidate_keeps_empty_requested witness_backend [0] [1]
    (by decide) (by decide)

private lemma analyse_project_mem {α : Type} (run : String → Except String (Option α)) :
    ∀ (users : List String) (acc : List String) (u : String),
      u ∈ users.foldl
        (fun acc u =>
          match run u with
          | Except.ok (some _) => acc ++ [u]
          | _ => acc) acc →
      u ∈ acc ∨ ∃ r, run u = Except.ok (some r) := by
  intro users
  induction users with
  | nil => intro acc u h; exact Or.inl h
  | cons v users ih =>
    intro acc u h
    rw [List.foldl_cons] at h
    rcases ih _ u h with hacc | hr
    · rcases hrun : run v with e | o
      · rw [hrun] at hacc
        exact Or.inl hacc
      · rcases o with _ | r
        · rw [hrun] at hacc
          exact Or.inl hacc
        · rw [hrun] at hacc
          rcases List.mem_append.mp hacc with h1 | h2
          · exact Or.inl h1
          · right
            rw [List.mem_singleton.mp h2]
            exact ⟨r, hrun⟩
    · exact Or.inr hr

/-- C10: in `analyse_user`, only a `ValueError` from the
diagnostic-plotting block is caught (the VAR results, already computed,
are still returned); any other plotting exception propagates out of
`analyse_user`; and at project level a user whose analysis raises is
excluded from the final summary table. -/
theorem analyse_user_plot_exception_semantics (B : VarBackend) (vs : List String)
    (performed requested merged : List Nat) (msg : String) (cols : Table)
    (hc : consolidate_dataframe vs performed requested merged = some cols)
    (hr : df_rows cols ≠ 0) :
    analyse_user B vs performed requested merged PlotOutcome.valueError =
        Except.ok (some (train_var_model B vs (select (diff_dropna cols) vs))) ∧
      analyse_user B vs performed requested merged (PlotOutcome.other msg) =
        Except.error msg ∧
      (∀ (users : List String)
        (run : String → Except String (Option (TrainState × List PermResult)))
        (u : String), run u = Except.error msg → u ∉ analyse_project users run) := by
  refine ⟨?_, ?_, ?_⟩
  · unfold analyse_user
    rw [hc]
    show (if df_rows cols = 0 then Except.ok none else _) = _
    rw [if_neg hr]
  · unfold analyse_user
    rw [hc]
    show (if df_rows cols = 0 then Except.ok none else _) = _
    rw [if_neg hr]
  · intro users run u hrun hmem
    rcases analyse_project_mem run users [] u hmem with h1 | ⟨r, h2⟩
    · cases h1
    · rw [hrun] at h2
      cases h2

/-- Witness for C10: concrete series that consolidate to a non-empty
frame; the non-ValueError plotting exception `"boom"` propagates. -/
theorem analyse_user_plot_exception_semantics_witness :
    analyse_user witness_backend
        [MERGES_PERFORMED_COLUMN, MERGES_REQUESTED_COLUMN, MERGES_SUCCESSFUL_COLUMN]
        [0] [1] [2] (PlotOutcome.other "boom") = Except.error "boom" :=
  (analyse_user_plot_exception_semantics witness_backend
    [MERGES_PERFORMED_COLUMN, MERGES_REQUESTED_COLUMN, MERGES_SUCCESSFUL_COLUMN]
    [0] [1] [2] "boom"
    (concat_align
      [(MERGES_PERFORMED_COLUMN, [0]), (MERGES_REQUESTED_COLUMN, [1]),
       (MERGES_SUCCESSFUL_COLUMN, [2])])
    (by decide) (by decide)).2.1

end DevAnalysis
